import Mathlib

/-!
Shallow embedding of the `AssetsFactoryPrecompile` bridge
(`src/precompiles/assets-factory/src/lib.rs`): an EVM precompile that
decodes ABI calls and forwards them as originated `pallet_assets` calls.

Machine integers are modelled as `Nat` (u64 / u128 bounds appear as
explicit hypotheses where the ABI domain matters).  The generic runtime's
collaborator functions (the `TryFrom<u64>` conversion for the internal
asset-id type, the admissibility predicate `is_allow_to_create`, the
deterministic `asset_id_to_address` map, the total `AddressMapping`, the
gas formula behind `record_log_costs_manual`, and the dispatch engine's
verdict) are packaged in a `Config` record.  A `Handle` models the
mutable `PrecompileHandle`: the authenticated caller, remaining gas, and
an ordered trace of observable effects (manual log-cost charges and
dispatched calls).  Each precompile function returns the updated handle
together with its `EvmResult`, threading the handle through error paths
exactly as a `&mut` reference does.
-/

namespace AssetsFactory

/-- A 20-byte EVM address (`H160` / `Address`), as a natural number. -/
abbrev H160 := Nat

/-- The runtime's internal account identifier (`Runtime::AccountId`). -/
abbrev AccountId := Nat

/-- The internal balance type (`BalanceOf<Runtime, Instance>`), a bounded
unsigned integer represented as a natural number. -/
abbrev Balance := Nat

/-- The internal asset identifier (`AssetIdOf` / `AssetIdParameterOf`),
a bounded unsigned integer represented as a natural number. -/
abbrev AssetId := Nat

/-- `type GetBytesLimit = ConstU32<{ 2u32.pow(16) }>` (lib.rs line 40). -/
def GetBytesLimit : Nat := 2 ^ 16

/-- Failure outcomes a precompile call can revert with: the
`RevertReason` values built in the source (`value_is_too_large` scoped
with `in_field`, `Custom`), out-of-gas from cost recording, the bounds
failure of the `BoundedBytes` decoder, and the engine's dispatch error. -/
inductive PrecompileFailure where
  | valueIsTooLarge (what field : String)
  | custom (msg : String)
  | outOfGas
  | readOutOfBounds (what : String)
  | dispatchError
  deriving DecidableEq

/-- The `pallet_assets::Call` variants built by the bridge, one per
mutating operation, carrying exactly the fields the source passes. -/
inductive AssetsCall where
  | create (id : AssetId) (admin : AccountId) (min_balance : Balance)
  | set_metadata (id : AssetId) (name symbol : List Nat) (decimals : Nat)
  | set_min_balance (id : AssetId) (min_balance : Balance)
  | set_team (id : AssetId) (issuer admin freezer : AccountId)
  | transfer_ownership (id : AssetId) (owner : AccountId)
  | start_destroy (id : AssetId)
  | finish_destroy (id : AssetId)
  deriving DecidableEq

/-- Observable effects on the precompile handle, in order: a manual
log-cost charge (`record_log_costs_manual(topics, bytes)`) or a dispatch
submitted to the execution engine with a resolved origin. -/
inductive Effect where
  | logCost (topics bytes : Nat)
  | dispatch (origin : AccountId) (call : AssetsCall)
  deriving DecidableEq

/-- The `PrecompileHandle`: authenticated caller (`handle.context().caller`),
remaining gas, and the ordered trace of effects recorded so far. -/
structure Handle where
  caller : H160
  gasLeft : Nat
  effects : List Effect
  deriving DecidableEq

/-- The collaborator functions the generic bridge is parameterized over.
`assetIdMax` bounds the internal asset-id type, so `TryFrom<u64>`
succeeds exactly on values up to it; likewise `balanceMax` for the
internal balance type.  `is_allow_to_create` is the `AssetIdExt`
admissibility predicate; `asset_id_to_address` is
`Runtime::asset_id_to_address`; `into_account_id` is the total
`AddressMapping`; `logCost t b` is the gas debited by
`record_log_costs_manual(t, b)`; `engineOk` is the dispatch engine's
verdict on a submitted call. -/
structure Config where
  assetIdMax : Nat
  balanceMax : Nat
  is_allow_to_create : AssetId → Bool
  asset_id_to_address : AssetId → H160
  into_account_id : H160 → AccountId
  logCost : Nat → Nat → Nat
  engineOk : AssetsCall → Bool

/-- `TryFrom<u64>` into the internal asset-id type: succeeds exactly when
the value fits the internal domain, never silently truncates. -/
def tryIntoAssetId (cfg : Config) (n : Nat) : Option AssetId :=
  if n ≤ cfg.assetIdMax then some n else none

/-- `TryFrom<u128>` into the internal balance type. -/
def tryIntoBalance (cfg : Config) (n : Nat) : Option Balance :=
  if n ≤ cfg.balanceMax then some n else none

/-- `min_balance.try_into().unwrap_or_else(|_| Bounded::max_value())`:
the saturating balance conversion used by `create` and `set_min_balance`. -/
def saturatingIntoBalance (cfg : Config) (n : Nat) : Balance :=
  (tryIntoBalance cfg n).getD cfg.balanceMax

/-- `Runtime::Lookup::unlookup`: injects an `AccountId` into the lookup
`Source` type.  `StaticLookup` guarantees `lookup ∘ unlookup = id`, so the
`Source` is represented by the account identifier itself. -/
def unlookup (a : AccountId) : AccountId := a

/-- `handle.record_log_costs_manual(topics, bytes)`: debit the fixed log
cost from the remaining gas and record the charge, or fail out-of-gas. -/
def record_log_costs_manual (cfg : Config) (h : Handle) (topics bytes : Nat) :
    Handle × Except PrecompileFailure Unit :=
  if cfg.logCost topics bytes ≤ h.gasLeft then
    ({ h with
        gasLeft := h.gasLeft - cfg.logCost topics bytes,
        effects := h.effects ++ [Effect.logCost topics bytes] },
      Except.ok ())
  else
    (h, Except.error PrecompileFailure.outOfGas)

/-- `RuntimeHelper::try_dispatch(handle, Some(origin).into(), call,
SYSTEM_ACCOUNT_SIZE)`: submit the call to the execution engine with the
resolved origin; the engine's weight metering, authorization check and
the `SYSTEM_ACCOUNT_SIZE` storage-growth accounting are abstracted into
its success verdict `engineOk`. -/
def try_dispatch (cfg : Config) (h : Handle) (origin : AccountId)
    (call : AssetsCall) : Handle × Except PrecompileFailure Unit :=
  let h' := { h with effects := h.effects ++ [Effect.dispatch origin call] }
  if cfg.engineOk call then (h', Except.ok ())
  else (h', Except.error PrecompileFailure.dispatchError)

/-- `convertAssetIdToAddress(uint64)` (lib.rs lines 70-81): convert the
id fallibly, then derive the address; the handle is unused (`_handle`). -/
def convert_asset_id_to_address (cfg : Config) (h : Handle) (id : Nat) :
    Handle × Except PrecompileFailure H160 :=
  match tryIntoAssetId cfg id with
  | none => (h, Except.error (PrecompileFailure.valueIsTooLarge "asset id" "id"))
  | some asset_id => (h, Except.ok (cfg.asset_id_to_address asset_id))

/-- `create(uint64,address,uint128)` (lib.rs lines 83-123). -/
def create (cfg : Config) (h : Handle) (id : Nat) (admin : H160)
    (min_balance : Nat) : Handle × Except PrecompileFailure Unit :=
  match record_log_costs_manual cfg h 3 32 with
  | (h, Except.error e) => (h, Except.error e)
  | (h, Except.ok _) =>
    match tryIntoAssetId cfg id with
    | none => (h, Except.error (PrecompileFailure.valueIsTooLarge "asset id" "id"))
    | some asset_id =>
      if !cfg.is_allow_to_create asset_id then
        (h, Except.error (PrecompileFailure.custom "Invalid asset id"))
      else
        let min_balance := saturatingIntoBalance cfg min_balance
        let origin := cfg.into_account_id h.caller
        let admin := cfg.into_account_id admin
        try_dispatch cfg h origin
          (AssetsCall.create asset_id (unlookup admin) min_balance)

/-- `setMetadata(uint64,bytes,bytes,uint8)` body (lib.rs lines 125-160),
after the `BoundedBytes` arguments have been decoded. -/
def set_metadata (cfg : Config) (h : Handle) (id : Nat)
    (name symbol : List Nat) (decimals : Nat) :
    Handle × Except PrecompileFailure Unit :=
  match record_log_costs_manual cfg h 3 32 with
  | (h, Except.error e) => (h, Except.error e)
  | (h, Except.ok _) =>
    match tryIntoAssetId cfg id with
    | none => (h, Except.error (PrecompileFailure.valueIsTooLarge "asset id" "id"))
    | some asset_id =>
      let origin := cfg.into_account_id h.caller
      try_dispatch cfg h origin
        (AssetsCall.set_metadata asset_id name symbol decimals)

/-- `setMinBalance(uint64,uint128)` (lib.rs lines 162-194). -/
def set_min_balance (cfg : Config) (h : Handle) (id : Nat)
    (min_balance : Nat) : Handle × Except PrecompileFailure Unit :=
  match record_log_costs_manual cfg h 3 32 with
  | (h, Except.error e) => (h, Except.error e)
  | (h, Except.ok _) =>
    match tryIntoAssetId cfg id with
    | none => (h, Except.error (PrecompileFailure.valueIsTooLarge "asset id" "id"))
    | some asset_id =>
      let min_balance := saturatingIntoBalance cfg min_balance
      let origin := cfg.into_account_id h.caller
      try_dispatch cfg h origin
        (AssetsCall.set_min_balance asset_id min_balance)

/-- `setTeam(uint64,address,address,address)` (lib.rs lines 196-235). -/
def set_team (cfg : Config) (h : Handle) (id : Nat)
    (issuer admin freezer : H160) : Handle × Except PrecompileFailure Unit :=
  match record_log_costs_manual cfg h 3 32 with
  | (h, Except.error e) => (h, Except.error e)
  | (h, Except.ok _) =>
    match tryIntoAssetId cfg id with
    | none => (h, Except.error (PrecompileFailure.valueIsTooLarge "asset id" "id"))
    | some asset_id =>
      let origin := cfg.into_account_id h.caller
      let issuer := cfg.into_account_id issuer
      let admin := cfg.into_account_id admin
      let freezer := cfg.into_account_id freezer
      try_dispatch cfg h origin
        (AssetsCall.set_team asset_id (unlookup issuer) (unlookup admin)
          (unlookup freezer))

/-- `transferOwnership(uint64,address)` (lib.rs lines 237-268). -/
def transfer_ownership (cfg : Config) (h : Handle) (id : Nat)
    (owner : H160) : Handle × Except PrecompileFailure Unit :=
  match record_log_costs_manual cfg h 3 32 with
  | (h, Except.error e) => (h, Except.error e)
  | (h, Except.ok _) =>
    match tryIntoAssetId cfg id with
    | none => (h, Except.error (PrecompileFailure.valueIsTooLarge "asset id" "id"))
    | some asset_id =>
      let origin := cfg.into_account_id h.caller
      let owner := cfg.into_account_id owner
      try_dispatch cfg h origin
        (AssetsCall.transfer_ownership asset_id (unlookup owner))

/-- `startDestroy(uint64)` (lib.rs lines 269-291). -/
def start_destroy (cfg : Config) (h : Handle) (id : Nat) :
    Handle × Except PrecompileFailure Unit :=
  match record_log_costs_manual cfg h 3 32 with
  | (h, Except.error e) => (h, Except.error e)
  | (h, Except.ok _) =>
    match tryIntoAssetId cfg id with
    | none => (h, Except.error (PrecompileFailure.valueIsTooLarge "asset id" "id"))
    | some asset_id =>
      let origin := cfg.into_account_id h.caller
      try_dispatch cfg h origin (AssetsCall.start_destroy asset_id)

/-- `finishDestroy(uint64)` (lib.rs lines 293-315). -/
def finish_destroy (cfg : Config) (h : Handle) (id : Nat) :
    Handle × Except PrecompileFailure Unit :=
  match record_log_costs_manual cfg h 3 32 with
  | (h, Except.error e) => (h, Except.error e)
  | (h, Except.ok _) =>
    match tryIntoAssetId cfg id with
    | none => (h, Except.error (PrecompileFailure.valueIsTooLarge "asset id" "id"))
    | some asset_id =>
      let origin := cfg.into_account_id h.caller
      try_dispatch cfg h origin (AssetsCall.finish_destroy asset_id)

/-- Modelled from the spec: the `BoundedBytes<S>` decoder of the
argument codec (the `precompile-utils` crate, not under `src/`) reads a
length-prefixed byte string and "must fail with an invalid/oversized
data condition if the declared length exceeds this bound" of `S` bytes. -/
def read_bounded_bytes (limit : Nat) (bytes : List Nat) :
    Except PrecompileFailure (List Nat) :=
  if bytes.length ≤ limit then Except.ok bytes
  else Except.error (PrecompileFailure.readOutOfBounds "bytes")

/-- Modelled from the spec: the selector-dispatch entry point for
`setMetadata` — the generated wrapper (not under `src/`) decodes each
argument, `name` and `symbol` as `BoundedBytes<GetBytesLimit>`, before
the handler body runs; a decode failure returns without touching the
handle. -/
def set_metadata_entry (cfg : Config) (h : Handle) (id : Nat)
    (name symbol : List Nat) (decimals : Nat) :
    Handle × Except PrecompileFailure Unit :=
  match read_bounded_bytes GetBytesLimit name with
  | Except.error e => (h, Except.error e)
  | Except.ok name =>
    match read_bounded_bytes GetBytesLimit symbol with
    | Except.error e => (h, Except.error e)
    | Except.ok symbol => set_metadata cfg h id name symbol decimals

/-- The closed set of operations the bridge exposes, one variant per
`#[precompile::public]` function in the source. -/
inductive OperationKind where
  | convertAssetIdToAddress
  | create
  | setMetadata
  | setMinBalance
  | setTeam
  | transferOwnership
  | startDestroy
  | finishDestroy
  deriving DecidableEq

/-- The canonical function signature attached to each operation by its
`#[precompile::public("...")]` attribute; its hash is the selector. -/
def signatureOf : OperationKind → String
  | OperationKind.convertAssetIdToAddress => "convertAssetIdToAddress(uint64)"
  | OperationKind.create => "create(uint64,address,uint128)"
  | OperationKind.setMetadata => "setMetadata(uint64,bytes,bytes,uint8)"
  | OperationKind.setMinBalance => "setMinBalance(uint64,uint128)"
  | OperationKind.setTeam => "setTeam(uint64,address,address,address)"
  | OperationKind.transferOwnership => "transferOwnership(uint64,address)"
  | OperationKind.startDestroy => "startDestroy(uint64)"
  | OperationKind.finishDestroy => "finishDestroy(uint64)"

/-- Enumeration of every exposed operation, in source order. -/
def operationKinds : List OperationKind :=
  [OperationKind.convertAssetIdToAddress, OperationKind.create,
   OperationKind.setMetadata, OperationKind.setMinBalance,
   OperationKind.setTeam, OperationKind.transferOwnership,
   OperationKind.startDestroy, OperationKind.finishDestroy]

/-- The canonical signatures of the exposed operations, in source order. -/
def signatures : List String := operationKinds.map signatureOf

/-- A mutating invocation of the bridge: one constructor per mutating
operation, carrying its decoded ABI arguments. -/
inductive MutatingOp where
  | create (id : Nat) (admin : H160) (min_balance : Nat)
  | setMetadata (id : Nat) (name symbol : List Nat) (decimals : Nat)
  | setMinBalance (id : Nat) (min_balance : Nat)
  | setTeam (id : Nat) (issuer admin freezer : H160)
  | transferOwnership (id : Nat) (owner : H160)
  | startDestroy (id : Nat)
  | finishDestroy (id : Nat)
  deriving DecidableEq

/-- Run a mutating invocation through its handler body. -/
def runMutating (cfg : Config) (h : Handle) :
    MutatingOp → Handle × Except PrecompileFailure Unit
  | MutatingOp.create id admin mb => create cfg h id admin mb
  | MutatingOp.setMetadata id name symbol d => set_metadata cfg h id name symbol d
  | MutatingOp.setMinBalance id mb => set_min_balance cfg h id mb
  | MutatingOp.setTeam id i a f => set_team cfg h id i a f
  | MutatingOp.transferOwnership id o => transfer_ownership cfg h id o
  | MutatingOp.startDestroy id => start_destroy cfg h id
  | MutatingOp.finishDestroy id => finish_destroy cfg h id

/-- The asset-id argument of a mutating invocation. -/
def MutatingOp.assetIdArg : MutatingOp → Nat
  | MutatingOp.create id _ _ => id
  | MutatingOp.setMetadata id _ _ _ => id
  | MutatingOp.setMinBalance id _ => id
  | MutatingOp.setTeam id _ _ _ => id
  | MutatingOp.transferOwnership id _ => id
  | MutatingOp.startDestroy id => id
  | MutatingOp.finishDestroy id => id

/-- The origins of the dispatches in an effect trace, in order. -/
def originsOf : List Effect → List AccountId
  | [] => []
  | Effect.dispatch o _ :: rest => o :: originsOf rest
  | Effect.logCost _ _ :: rest => originsOf rest

theorem originsOf_append (l₁ l₂ : List Effect) :
    originsOf (l₁ ++ l₂) = originsOf l₁ ++ originsOf l₂ := by
  induction l₁ with
  | nil => rfl
  | cons e rest ih => cases e <;> simp [originsOf, ih]

/-- A concrete collaborator instantiation used to exercise the theorems
on explicit inputs. -/
def exampleConfig : Config where
  assetIdMax := 1000
  balanceMax := 10
  is_allow_to_create := fun i => decide (i % 2 = 1)
  asset_id_to_address := fun i => i + 7
  into_account_id := fun a => a + 100
  logCost := fun t b => t * 10 + b
  engineOk := fun _ => true

/-- A concrete handle state used to exercise the theorems. -/
def exampleHandle : Handle where
  caller := 5
  gasLeft := 500
  effects := []

/-- C1: for every call to `create` with a u64 id that converts into the
internal asset-id type and passes the admissibility predicate, an admin
address, and a u128 `min_balance` within the internal balance domain,
the bridge dispatches exactly one create request whose origin is the
account mapped from the authenticated caller, whose admin is the account
mapped from the admin argument, and whose `min_balance` equals the given
value; on engine success, `create` returns success with an empty payload. -/
theorem create_success_dispatches_once (cfg : Config) (h : Handle)
    (id : Nat) (admin : H160) (min_balance : Nat)
    (hu64 : id < 2 ^ 64) (hu128 : min_balance < 2 ^ 128)
    (hid : id ≤ cfg.assetIdMax)
    (hallow : cfg.is_allow_to_create id = true)
    (hbal : min_balance ≤ cfg.balanceMax)
    (hgas : cfg.logCost 3 32 ≤ h.gasLeft)
    (hengine : cfg.engineOk
      (AssetsCall.create id (cfg.into_account_id admin) min_balance) = true) :
    create cfg h id admin min_balance =
      ({ caller := h.caller,
         gasLeft := h.gasLeft - cfg.logCost 3 32,
         effects := h.effects ++
           [Effect.logCost 3 32,
            Effect.dispatch (cfg.into_account_id h.caller)
              (AssetsCall.create id (cfg.into_account_id admin) min_balance)] },
       Except.ok ()) := by
  simp [create, record_log_costs_manual, tryIntoAssetId, hid, hallow, hbal,
    hgas, saturatingIntoBalance, tryIntoBalance, unlookup, try_dispatch,
    hengine]

/-- C1 witness: a concrete admissible `create` call succeeds and
dispatches exactly one create request with the mapped origin and admin. -/
theorem create_success_dispatches_once_witness :
    create exampleConfig exampleHandle 5 3 7 =
      ({ caller := 5, gasLeft := 438,
         effects := [Effect.logCost 3 32,
           Effect.dispatch 105 (AssetsCall.create 5 103 7)] },
       Except.ok ()) :=
  create_success_dispatches_once exampleConfig exampleHandle 5 3 7
    (by norm_num) (by norm_num) (by decide) (by decide) (by decide)
    (by decide) (by decide)

/-- C2: for every u64 id whose converted internal asset id fails the
admissibility predicate, `create` fails with `Custom("Invalid asset id")`
and does not invoke the underlying dispatch: the handle records no
dispatch effect and no charge beyond the fixed log-cost pre-charge. -/
theorem create_inadmissible_no_dispatch (cfg : Config) (h : Handle)
    (id : Nat) (admin : H160) (min_balance : Nat)
    (hu64 : id < 2 ^ 64)
    (hid : id ≤ cfg.assetIdMax)
    (hallow : cfg.is_allow_to_create id = false)
    (hgas : cfg.logCost 3 32 ≤ h.gasLeft) :
    create cfg h id admin min_balance =
      ({ caller := h.caller,
         gasLeft := h.gasLeft - cfg.logCost 3 32,
         effects := h.effects ++ [Effect.logCost 3 32] },
       Except.error (PrecompileFailure.custom "Invalid asset id")) := by
  simp [create, record_log_costs_manual, tryIntoAssetId, hid, hallow, hgas]

/-- C2 witness: a concrete inadmissible `create` call reverts with the
custom reason, charged only the fixed log cost, with no dispatch. -/
theorem create_inadmissible_no_dispatch_witness :
    create exampleConfig exampleHandle 6 3 7 =
      ({ caller := 5, gasLeft := 438,
         effects := [Effect.logCost 3 32] },
       Except.error (PrecompileFailure.custom "Invalid asset id")) :=
  create_inadmissible_no_dispatch exampleConfig exampleHandle 6 3 7
    (by norm_num) (by decide) (by decide) (by decide)

/-- C6: the balance conversion used by `create` and `setMinBalance`
saturates — every u128 value above the internal maximum converts to
exactly that maximum, never an error, and in-domain values convert to
themselves — and the request dispatched by `set_min_balance` carries the
saturated value. -/
theorem min_balance_conversion_saturates (cfg : Config) (n : Nat) :
    (n < 2 ^ 128 → cfg.balanceMax < n →
      saturatingIntoBalance cfg n = cfg.balanceMax) ∧
    (n ≤ cfg.balanceMax → saturatingIntoBalance cfg n = n) ∧
    (∀ h : Handle, ∀ id : Nat, id ≤ cfg.assetIdMax →
      cfg.logCost 3 32 ≤ h.gasLeft →
      (set_min_balance cfg h id n).1.effects =
        h.effects ++ [Effect.logCost 3 32,
          Effect.dispatch (cfg.into_account_id h.caller)
            (AssetsCall.set_min_balance id (saturatingIntoBalance cfg n))]) := by
  refine ⟨fun _ hgt => ?_, fun hle => ?_, fun h id hid hgas => ?_⟩
  · simp [saturatingIntoBalance, tryIntoBalance, Nat.not_le.mpr hgt]
  · simp [saturatingIntoBalance, tryIntoBalance, hle]
  · simp only [set_min_balance, record_log_costs_manual, tryIntoAssetId,
      if_pos hgas, if_pos hid, try_dispatch]
    split <;> simp

/-- C6 witness: a value above the example maximum clamps to it, an
in-domain value converts to itself, and a concrete `setMinBalance`
dispatch carries the clamped value. -/
theorem min_balance_conversion_saturates_witness :
    saturatingIntoBalance exampleConfig 11 = 10 ∧
    saturatingIntoBalance exampleConfig 7 = 7 ∧
    (set_min_balance exampleConfig exampleHandle 5 11).1.effects =
      [Effect.logCost 3 32,
       Effect.dispatch 105
         (AssetsCall.set_min_balance 5 (saturatingIntoBalance exampleConfig 11))] :=
  ⟨(min_balance_conversion_saturates exampleConfig 11).1 (by norm_num)
      (by decide),
   (min_balance_conversion_saturates exampleConfig 7).2.1 (by decide),
   (min_balance_conversion_saturates exampleConfig 11).2.2 exampleHandle 5
      (by decide) (by decide)⟩

/-- C8: for every u64 id convertible into the internal asset-id type,
`convertAssetIdToAddress` returns the address derived from the id by the
collaborator-owned deterministic function and is a pure function of the
id (its result does not depend on the handle state, so repeated calls
agree); for every u64 id not convertible it fails with a "value too
large" condition scoped to the field "id". -/
theorem convert_asset_id_to_address_spec (cfg : Config) (h h' : Handle)
    (id : Nat) (hu64 : id < 2 ^ 64) :
    (id ≤ cfg.assetIdMax →
      convert_asset_id_to_address cfg h id =
        (h, Except.ok (cfg.asset_id_to_address id))) ∧
    (convert_asset_id_to_address cfg h id).2 =
      (convert_asset_id_to_address cfg h' id).2 ∧
    (cfg.assetIdMax < id →
      convert_asset_id_to_address cfg h id =
        (h, Except.error
          (PrecompileFailure.valueIsTooLarge "asset id" "id"))) := by
  refine ⟨fun hle => ?_, ?_, fun hgt => ?_⟩
  · simp [convert_asset_id_to_address, tryIntoAssetId, hle]
  · unfold convert_asset_id_to_address
    cases htry : tryIntoAssetId cfg id <;> rfl
  · simp [convert_asset_id_to_address, tryIntoAssetId, Nat.not_le.mpr hgt]

/-- C8 witness: a concrete convertible id yields the derived address on
two different handle states alike, and a concrete out-of-range id yields
the field-scoped "value too large" revert. -/
theorem convert_asset_id_to_address_spec_witness :
    convert_asset_id_to_address exampleConfig exampleHandle 5 =
      (exampleHandle, Except.ok 12) ∧
    (convert_asset_id_to_address exampleConfig exampleHandle 5).2 =
      (convert_asset_id_to_address exampleConfig
        { caller := 9, gasLeft := 0, effects := [] } 5).2 ∧
    convert_asset_id_to_address exampleConfig exampleHandle 2000 =
      (exampleHandle,
       Except.error (PrecompileFailure.valueIsTooLarge "asset id" "id")) :=
  ⟨(convert_asset_id_to_address_spec exampleConfig exampleHandle
      exampleHandle 5 (by norm_num)).1 (by decide),
   (convert_asset_id_to_address_spec exampleConfig exampleHandle
      { caller := 9, gasLeft := 0, effects := [] } 5 (by norm_num)).2.1,
   (convert_asset_id_to_address_spec exampleConfig exampleHandle
      exampleHandle 2000 (by norm_num)).2.2 (by decide)⟩

/-- C10: `convertAssetIdToAddress` never records a manual log-cost
charge and never submits a dispatch — the handle comes back exactly as
it went in, so gas accounting and the effect trace are unchanged. -/
theorem convert_asset_id_to_address_no_effects (cfg : Config) (h : Handle)
    (id : Nat) :
    (convert_asset_id_to_address cfg h id).1 = h := by
  unfold convert_asset_id_to_address
  cases tryIntoAssetId cfg id <;> rfl

/-- C3: in every mutating operation, every dispatch the call adds to the
trace carries as origin the internal account mapped from the
invocation's authenticated caller address — the new dispatch origins are
zero or more copies of `into_account_id h.caller`, never a value derived
from a decoded argument. -/
theorem mutating_origin_from_caller (cfg : Config) (h : Handle)
    (op : MutatingOp) :
    ∃ n, originsOf (runMutating cfg h op).1.effects =
      originsOf h.effects ++
        List.replicate n (cfg.into_account_id h.caller) := by
  cases op with
  | create id admin mb =>
    by_cases hg : cfg.logCost 3 32 ≤ h.gasLeft
    · by_cases hid : id ≤ cfg.assetIdMax
      · by_cases ha : cfg.is_allow_to_create id = true
        · exact ⟨1, by
            simp [runMutating, create, record_log_costs_manual, tryIntoAssetId,
              hg, hid, ha, try_dispatch, apply_ite, originsOf_append,
              originsOf]⟩
        · exact ⟨0, by
            simp [runMutating, create, record_log_costs_manual, tryIntoAssetId,
              hg, hid, ha, originsOf_append, originsOf]⟩
      · exact ⟨0, by
          simp [runMutating, create, record_log_costs_manual, tryIntoAssetId,
            hg, hid, originsOf_append, originsOf]⟩
    · exact ⟨0, by
        simp [runMutating, create, record_log_costs_manual, hg,
          originsOf_append, originsOf]⟩
  | setMetadata id name symbol d =>
    by_cases hg : cfg.logCost 3 32 ≤ h.gasLeft
    · by_cases hid : id ≤ cfg.assetIdMax
      · exact ⟨1, by
          simp [runMutating, set_metadata, record_log_costs_manual,
            tryIntoAssetId, hg, hid, try_dispatch, apply_ite,
            originsOf_append, originsOf]⟩
      · exact ⟨0, by
          simp [runMutating, set_metadata, record_log_costs_manual,
            tryIntoAssetId, hg, hid, originsOf_append, originsOf]⟩
    · exact ⟨0, by
        simp [runMutating, set_metadata, record_log_costs_manual, hg,
          originsOf_append, originsOf]⟩
  | setMinBalance id mb =>
    by_cases hg : cfg.logCost 3 32 ≤ h.gasLeft
    · by_cases hid : id ≤ cfg.assetIdMax
      · exact ⟨1, by
          simp [runMutating, set_min_balance, record_log_costs_manual,
            tryIntoAssetId, hg, hid, try_dispatch, apply_ite,
            originsOf_append, originsOf]⟩
      · exact ⟨0, by
          simp [runMutating, set_min_balance, record_log_costs_manual,
            tryIntoAssetId, hg, hid, originsOf_append, originsOf]⟩
    · exact ⟨0, by
        simp [runMutating, set_min_balance, record_log_costs_manual, hg,
          originsOf_append, originsOf]⟩
  | setTeam id i a f =>
    by_cases hg : cfg.logCost 3 32 ≤ h.gasLeft
    · by_cases hid : id ≤ cfg.assetIdMax
      · exact ⟨1, by
          simp [runMutating, set_team, record_log_costs_manual,
            tryIntoAssetId, hg, hid, try_dispatch, apply_ite,
            originsOf_append, originsOf]⟩
      · exact ⟨0, by
          simp [runMutating, set_team, record_log_costs_manual,
            tryIntoAssetId, hg, hid, originsOf_append, originsOf]⟩
    · exact ⟨0, by
        simp [runMutating, set_team, record_log_costs_manual, hg,
          originsOf_append, originsOf]⟩
  | transferOwnership id o =>
    by_cases hg : cfg.logCost 3 32 ≤ h.gasLeft
    · by_cases hid : id ≤ cfg.assetIdMax
      · exact ⟨1, by
          simp [runMutating, transfer_ownership, record_log_costs_manual,
            tryIntoAssetId, hg, hid, try_dispatch, apply_ite,
            originsOf_append, originsOf]⟩
      · exact ⟨0, by
          simp [runMutating, transfer_ownership, record_log_costs_manual,
            tryIntoAssetId, hg, hid, originsOf_append, originsOf]⟩
    · exact ⟨0, by
        simp [runMutating, transfer_ownership, record_log_costs_manual, hg,
          originsOf_append, originsOf]⟩
  | startDestroy id =>
    by_cases hg : cfg.logCost 3 32 ≤ h.gasLeft
    · by_cases hid : id ≤ cfg.assetIdMax
      · exact ⟨1, by
          simp [runMutating, start_destroy, record_log_costs_manual,
            tryIntoAssetId, hg, hid, try_dispatch, apply_ite,
            originsOf_append, originsOf]⟩
      · exact ⟨0, by
          simp [runMutating, start_destroy, record_log_costs_manual,
            tryIntoAssetId, hg, hid, originsOf_append, originsOf]⟩
    · exact ⟨0, by
        simp [runMutating, start_destroy, record_log_costs_manual, hg,
          originsOf_append, originsOf]⟩
  | finishDestroy id =>
    by_cases hg : cfg.logCost 3 32 ≤ h.gasLeft
    · by_cases hid : id ≤ cfg.assetIdMax
      · exact ⟨1, by
          simp [runMutating, finish_destroy, record_log_costs_manual,
            tryIntoAssetId, hg, hid, try_dispatch, apply_ite,
            originsOf_append, originsOf]⟩
      · exact ⟨0, by
          simp [runMutating, finish_destroy, record_log_costs_manual,
            tryIntoAssetId, hg, hid, originsOf_append, originsOf]⟩
    · exact ⟨0, by
        simp [runMutating, finish_destroy, record_log_costs_manual, hg,
          originsOf_append, originsOf]⟩

/-- C4: in every mutating operation, when gas covers the fixed manual
log-cost charge of 3 indexed topics and 32 bytes, that charge is the
first effect the call records — it follows argument decoding and
precedes every other effect — and for `create` it precedes the
admissibility check, so a `create` rejected as inadmissible still
incurs exactly the log-cost charge. -/
theorem log_cost_charged_before_all_else (cfg : Config) (h : Handle)
    (hgas : cfg.logCost 3 32 ≤ h.gasLeft) :
    (∀ op : MutatingOp, ∃ l,
      (runMutating cfg h op).1.effects =
        h.effects ++ Effect.logCost 3 32 :: l) ∧
    (∀ id admin mb : Nat, id ≤ cfg.assetIdMax →
      cfg.is_allow_to_create id = false →
      create cfg h id admin mb =
        ({ caller := h.caller,
           gasLeft := h.gasLeft - cfg.logCost 3 32,
           effects := h.effects ++ [Effect.logCost 3 32] },
         Except.error (PrecompileFailure.custom "Invalid asset id"))) := by
  constructor
  · intro op
    cases op with
    | create id admin mb =>
      by_cases hid : id ≤ cfg.assetIdMax
      · by_cases ha : cfg.is_allow_to_create id = true
        · exact ⟨[Effect.dispatch (cfg.into_account_id h.caller)
              (AssetsCall.create id (unlookup (cfg.into_account_id admin))
                (saturatingIntoBalance cfg mb))], by
            simp [runMutating, create, record_log_costs_manual, tryIntoAssetId,
              hgas, hid, ha, try_dispatch, apply_ite]⟩
        · exact ⟨[], by
            simp [runMutating, create, record_log_costs_manual, tryIntoAssetId,
              hgas, hid, ha]⟩
      · exact ⟨[], by
          simp [runMutating, create, record_log_costs_manual, tryIntoAssetId,
            hgas, hid]⟩
    | setMetadata id name symbol d =>
      by_cases hid : id ≤ cfg.assetIdMax
      · exact ⟨[Effect.dispatch (cfg.into_account_id h.caller)
            (AssetsCall.set_metadata id name symbol d)], by
          simp [runMutating, set_metadata, record_log_costs_manual,
            tryIntoAssetId, hgas, hid, try_dispatch, apply_ite]⟩
      · exact ⟨[], by
          simp [runMutating, set_metadata, record_log_costs_manual,
            tryIntoAssetId, hgas, hid]⟩
    | setMinBalance id mb =>
      by_cases hid : id ≤ cfg.assetIdMax
      · exact ⟨[Effect.dispatch (cfg.into_account_id h.caller)
            (AssetsCall.set_min_balance id (saturatingIntoBalance cfg mb))], by
          simp [runMutating, set_min_balance, record_log_costs_manual,
            tryIntoAssetId, hgas, hid, try_dispatch, apply_ite]⟩
      · exact ⟨[], by
          simp [runMutating, set_min_balance, record_log_costs_manual,
            tryIntoAssetId, hgas, hid]⟩
    | setTeam id i a f =>
      by_cases hid : id ≤ cfg.assetIdMax
      · exact ⟨[Effect.dispatch (cfg.into_account_id h.caller)
            (AssetsCall.set_team id (unlookup (cfg.into_account_id i))
              (unlookup (cfg.into_account_id a))
              (unlookup (cfg.into_account_id f)))], by
          simp [runMutating, set_team, record_log_costs_manual,
            tryIntoAssetId, hgas, hid, try_dispatch, apply_ite]⟩
      · exact ⟨[], by
          simp [runMutating, set_team, record_log_costs_manual,
            tryIntoAssetId, hgas, hid]⟩
    | transferOwnership id o =>
      by_cases hid : id ≤ cfg.assetIdMax
      · exact ⟨[Effect.dispatch (cfg.into_account_id h.caller)
            (AssetsCall.transfer_ownership id
              (unlookup (cfg.into_account_id o)))], by
          simp [runMutating, transfer_ownership, record_log_costs_manual,
            tryIntoAssetId, hgas, hid, try_dispatch, apply_ite]⟩
      · exact ⟨[], by
          simp [runMutating, transfer_ownership, record_log_costs_manual,
            tryIntoAssetId, hgas, hid]⟩
    | startDestroy id =>
      by_cases hid : id ≤ cfg.assetIdMax
      · exact ⟨[Effect.dispatch (cfg.into_account_id h.caller)
            (AssetsCall.start_destroy id)], by
          simp [runMutating, start_destroy, record_log_costs_manual,
            tryIntoAssetId, hgas, hid, try_dispatch, apply_ite]⟩
      · exact ⟨[], by
          simp [runMutating, start_destroy, record_log_costs_manual,
            tryIntoAssetId, hgas, hid]⟩
    | finishDestroy id =>
      by_cases hid : id ≤ cfg.assetIdMax
      · exact ⟨[Effect.dispatch (cfg.into_account_id h.caller)
            (AssetsCall.finish_destroy id)], by
          simp [runMutating, finish_destroy, record_log_costs_manual,
            tryIntoAssetId, hgas, hid, try_dispatch, apply_ite]⟩
      · exact ⟨[], by
          simp [runMutating, finish_destroy, record_log_costs_manual,
            tryIntoAssetId, hgas, hid]⟩
  · intro id admin mb hid hallow
    simp [create, record_log_costs_manual, tryIntoAssetId, hgas, hid, hallow]

/-- C4 witness: on a concrete handle, the first effect a mutating call
records is the 3-topic/32-byte charge, and a concrete inadmissible
`create` still incurs exactly that charge while reverting. -/
theorem log_cost_charged_before_all_else_witness :
    (∃ l, (runMutating exampleConfig exampleHandle
        (MutatingOp.startDestroy 8)).1.effects =
      Effect.logCost 3 32 :: l) ∧
    create exampleConfig exampleHandle 6 3 7 =
      ({ caller := 5, gasLeft := 438, effects := [Effect.logCost 3 32] },
       Except.error (PrecompileFailure.custom "Invalid asset id")) := by
  constructor
  · obtain ⟨l, hl⟩ :=
      (log_cost_charged_before_all_else exampleConfig exampleHandle
        (by decide)).1 (MutatingOp.startDestroy 8)
    exact ⟨l, by simpa [exampleHandle] using hl⟩
  · have h2 :=
      (log_cost_charged_before_all_else exampleConfig exampleHandle
        (by decide)).2 6 3 7 (by decide) (by decide)
    simpa [exampleHandle] using h2

/-- C9: in every mutating operation, the log-cost charge is recorded
before the u64 id is converted to the internal asset-id type: a call
whose id exceeds the internal range, given enough gas for the charge,
still incurs the 3-topic/32-byte charge and then reverts with the
"value too large" reason scoped to field "id". -/
theorem log_cost_before_id_conversion (cfg : Config) (h : Handle)
    (op : MutatingOp)
    (hgas : cfg.logCost 3 32 ≤ h.gasLeft)
    (hbig : cfg.assetIdMax < op.assetIdArg) :
    runMutating cfg h op =
      ({ caller := h.caller,
         gasLeft := h.gasLeft - cfg.logCost 3 32,
         effects := h.effects ++ [Effect.logCost 3 32] },
       Except.error (PrecompileFailure.valueIsTooLarge "asset id" "id")) := by
  cases op <;>
    simp only [MutatingOp.assetIdArg] at hbig <;>
    simp [runMutating, create, set_metadata, set_min_balance, set_team,
      transfer_ownership, start_destroy, finish_destroy,
      record_log_costs_manual, tryIntoAssetId, hgas, Nat.not_le.mpr hbig]

/-- C9 witness: a concrete out-of-range id on a mutating operation is
charged the log cost and then reverts field-scoped "value too large". -/
theorem log_cost_before_id_conversion_witness :
    runMutating exampleConfig exampleHandle (MutatingOp.startDestroy 2000) =
      ({ caller := 5, gasLeft := 438, effects := [Effect.logCost 3 32] },
       Except.error (PrecompileFailure.valueIsTooLarge "asset id" "id")) := by
  have hres := log_cost_before_id_conversion exampleConfig exampleHandle
    (MutatingOp.startDestroy 2000) (by decide) (by decide)
  simpa [exampleHandle] using hres

/-- C5 counterexample: the bridge does not expose nine operations — the
source declares eight `#[precompile::public]` functions, so the
signature list has length 8, not 9. -/
theorem exposed_operations_not_nine : ¬ signatures.length = 9 := by
  decide

/-- C5 (amended): the bridge exposes exactly eight externally
addressable operations, each identified by a distinct canonical function
signature, and `OperationKind` is a closed set of eight variants, one
per exposed function. -/
theorem exposed_operations_eight :
    signatures.length = 8 ∧ signatures.Nodup ∧
    signatures = operationKinds.map signatureOf ∧
    (∀ k : OperationKind, k ∈ operationKinds) ∧
    operationKinds.Nodup := by
  refine ⟨by decide, by decide, rfl, fun k => ?_, by decide⟩
  cases k <;> decide

/-- C7: a `setMetadata` call whose name or symbol byte string is longer
than 65536 bytes fails at decode time with the oversized-data condition,
and the handle comes back untouched — no validation, no log-cost charge,
no dispatch. -/
theorem set_metadata_oversized_rejected (cfg : Config) (h : Handle)
    (id : Nat) (name symbol : List Nat) (decimals : Nat)
    (hover : 65536 < name.length ∨ 65536 < symbol.length) :
    set_metadata_entry cfg h id name symbol decimals =
      (h, Except.error (PrecompileFailure.readOutOfBounds "bytes")) := by
  have hlim : GetBytesLimit = 65536 := by norm_num [GetBytesLimit]
  rcases hover with hn | hs
  · simp [set_metadata_entry, read_bounded_bytes, hlim, Nat.not_le.mpr hn]
  · by_cases hn : name.length ≤ 65536
    · simp [set_metadata_entry, read_bounded_bytes, hlim, hn,
        Nat.not_le.mpr hs]
    · simp [set_metadata_entry, read_bounded_bytes, hlim, hn]

/-- C7 witness: a concrete 65537-byte name makes `setMetadata` fail at
decode time with the handle untouched. -/
theorem set_metadata_oversized_rejected_witness :
    set_metadata_entry exampleConfig exampleHandle 5
        (List.replicate 65537 0) [] 2 =
      (exampleHandle,
       Except.error (PrecompileFailure.readOutOfBounds "bytes")) :=
  set_metadata_oversized_rejected exampleConfig exampleHandle 5
    (List.replicate 65537 0) [] 2
    (Or.inl (by rw [List.length_replicate]; norm_num))

end AssetsFactory
